import Mathlib

/-!
Verification of the overlay-editing state model and compositing pipeline of
`preact-face-to-emoji` (src/src/app.tsx), shallowly embedded in Lean 4.
JavaScript numbers are modelled as rationals (ℚ); the sticker record mirrors
the `Emoji` interface of the source.
-/

namespace FaceToEmoji

/-- The `Emoji` interface of app.tsx (lines 6-14): a placed sticker with an
opaque id, a glyph character, display-space top-left `x, y`, base side
length `width` (square footprint), a `scale` multiplier and a `rotation`
in degrees. -/
structure Emoji where
  id : String
  char : String
  x : ℚ
  y : ℚ
  width : ℚ
  scale : ℚ
  rotation : ℚ
deriving DecidableEq, Repr

/-- A detector bounding box (`detection.box` of face-api.js), in natural-image
pixel coordinates; only the fields the placement code reads. -/
structure Box where
  x : ℚ
  y : ℚ
  width : ℚ
deriving DecidableEq, Repr

/-- The store-level state of the app that the claims concern: the ordered
sticker list `emojis`, the selection `selectedEmojiId`, and the loaded
image URL (app.tsx lines 19-22). -/
structure AppState where
  emojis : List Emoji
  selectedEmojiId : Option String
  imageUrl : Option String
deriving DecidableEq, Repr

/-! ## Placement from detections (app.tsx lines 144-158)

`detectAndPlaceEmojis` maps each detection box to a fresh sticker, dividing
`x`, `y`, `width` by the display scale factor, with `scale = 1`,
`rotation = 0` and the currently selected glyph; ids come from a fresh-id
supply (`Math.random().toString(36).substring(7)` in the source, modelled
as an arbitrary function of the index). -/
def placeFromDetections (mkId : Nat → String) (glyph : String) (scaleFactor : ℚ)
    (dets : List Box) : List Emoji :=
  dets.enum.map fun p =>
    { id := mkId p.1
      char := glyph
      x := p.2.x / scaleFactor
      y := p.2.y / scaleFactor
      width := p.2.width / scaleFactor
      scale := 1
      rotation := 0 }

/-- `detectAndPlaceEmojis` then installs the produced list wholesale with
`setEmojis(newEmojis)` (app.tsx line 158); `selectedEmojiId` is not
touched. -/
def applyDetectionRun (s : AppState) (newEmojis : List Emoji) : AppState :=
  { s with emojis := newEmojis }

/-- `handleImageUpload`'s `reader.onload` callback (app.tsx lines 104-109):
sets the image URL and empties the sticker list; `selectedEmojiId` is not
touched. -/
def loadNewImage (s : AppState) (url : String) : AppState :=
  { s with imageUrl := some url, emojis := [] }

/-- Mapping a function that only reads the element over an enumerated list
forgets the indices. -/
theorem enumFrom_map_val {α : Type} (h : Box → α) :
    ∀ (n : Nat) (l : List Box),
      (List.enumFrom n l).map (fun p => h p.2) = l.map h := by
  intro n l
  induction l generalizing n with
  | nil => rfl
  | cons b t ih => simp [List.enumFrom, ih]

/-- C2: for every detection box and positive display scale factor `f`,
placement divides `x`, `y`, `width` by `f` and sets `scale = 1`,
`rotation = 0`, glyph = the selected glyph. -/
theorem placeFromDetections_fields (mkId : Nat → String) (glyph : String)
    (f : ℚ) (dets : List Box) (_hf : 0 < f) :
    (placeFromDetections mkId glyph f dets).map
        (fun e => (e.x, e.y, e.width, e.scale, e.rotation, e.char))
      = dets.map (fun d => (d.x / f, d.y / f, d.width / f, (1 : ℚ), (0 : ℚ), glyph)) := by
  unfold placeFromDetections List.enum
  rw [List.map_map]
  exact enumFrom_map_val (fun d => (d.x / f, d.y / f, d.width / f, 1, 0, glyph)) 0 dets

/-- C2 witness: with `f = 2` and box `{x:100, y:50, width:80}`, placement
yields `{x:50, y:25, width:40}` with scale 1, rotation 0. -/
theorem placeFromDetections_fields_witness :
    (0 : ℚ) < 2 ∧
    (placeFromDetections (fun _ => "a") "😀" 2 [⟨100, 50, 80⟩]).map
        (fun e => (e.x, e.y, e.width, e.scale, e.rotation, e.char))
      = [((50 : ℚ), (25 : ℚ), (40 : ℚ), (1 : ℚ), (0 : ℚ), "😀")] := by
  refine ⟨by norm_num, ?_⟩
  rw [placeFromDetections_fields (fun _ => "a") "😀" 2 [⟨100, 50, 80⟩] (by norm_num)]
  norm_num

/-! ## Manual placement (app.tsx lines 172-194)

In manual-add mode, a click at `(clickX, clickY)` relative to the container
creates a sticker with `x = clickX`, `y = clickY`, `width = 50` (the
`defaultWidth` constant of line 184), `scale = 1`, `rotation = 0`, and
appends it to the list (`[...prev, newEmoji]`). -/
def handleManualAdd (s : AppState) (clickX clickY : ℚ) (glyph newId : String) :
    AppState :=
  { s with
    emojis := s.emojis ++
      [{ id := newId, char := glyph, x := clickX, y := clickY, width := 50,
         scale := 1, rotation := 0 }] }

/-! ## Removal (app.tsx lines 353-358 and 541-546)

`removeSelectedEmoji` acts only when `selectedEmojiId` is truthy (JS: not
`null` and not the empty string), filtering it out and clearing the
selection; the double-click handler on a sticker filters that sticker out
and clears the selection unconditionally. -/
def removeSelectedEmoji (s : AppState) : AppState :=
  match s.selectedEmojiId with
  | none => s
  | some sid =>
    if sid = "" then s
    else
      { s with
        emojis := s.emojis.filter (fun e => e.id != sid)
        selectedEmojiId := none }

def handleDblClick (s : AppState) (targetId : String) : AppState :=
  { s with
    emojis := s.emojis.filter (fun e => e.id != targetId)
    selectedEmojiId := none }

/-- `clearAllEmojis` (app.tsx lines 361-364): empties the list and clears the
selection. -/
def clearAllEmojis (s : AppState) : AppState :=
  { s with emojis := [], selectedEmojiId := none }

/-- C1 counterexample: with a sticker present and sticker "a" selected,
neither loading a new image nor installing a detection run's list clears
the selection — it stays `some "a"`, refuting "sets the selection to none,
unconditionally". -/
theorem replaceAll_keeps_selection_cex :
    (loadNewImage
        { emojis := [{ id := "a", char := "😀", x := 0, y := 0, width := 50,
                       scale := 1, rotation := 0 }]
          selectedEmojiId := some "a"
          imageUrl := some "old" } "new").selectedEmojiId ≠ none ∧
    (applyDetectionRun
        { emojis := [{ id := "a", char := "😀", x := 0, y := 0, width := 50,
                       scale := 1, rotation := 0 }]
          selectedEmojiId := some "a"
          imageUrl := some "old" } []).selectedEmojiId ≠ none := by
  constructor <;> simp [loadNewImage, applyDetectionRun]

/-- C1 amended: a replace-all (detection run installing its list, or new
image load installing the empty list) discards all existing stickers and
installs the new ordered sequence, but leaves the selection unchanged
rather than clearing it. -/
theorem replaceAll_replaces_and_keeps_selection (s : AppState)
    (newEmojis : List Emoji) (url : String) :
    (applyDetectionRun s newEmojis).emojis = newEmojis ∧
    (applyDetectionRun s newEmojis).selectedEmojiId = s.selectedEmojiId ∧
    (loadNewImage s url).emojis = [] ∧
    (loadNewImage s url).selectedEmojiId = s.selectedEmojiId := by
  refine ⟨rfl, rfl, rfl, rfl⟩

/-- C5 counterexample: a manual click at `(100, 100)` produces a sticker
whose footprint is `[100, 150] × [100, 150]`, centered at `(125, 125)` —
not centered at the click point. -/
theorem manualAdd_not_centered_cex :
    ((handleManualAdd { emojis := [], selectedEmojiId := none,
                        imageUrl := some "img" } 100 100 "😀" "b").emojis.getLast?
        = some { id := "b", char := "😀", x := 100, y := 100, width := 50,
                 scale := 1, rotation := 0 }) ∧
    (100 : ℚ) + 50 / 2 ≠ 100 := by
  constructor
  · rfl
  · norm_num

/-- C5 amended: manual placement creates a single sticker whose *top-left*
is at the click point, with the fixed default width 50 (scale 1,
rotation 0, the selected glyph), appended to the end of the store without
replacing or removing any existing sticker. -/
theorem manualAdd_appends_topLeft_at_click (s : AppState)
    (clickX clickY : ℚ) (glyph newId : String) :
    (handleManualAdd s clickX clickY glyph newId).emojis.dropLast = s.emojis ∧
    (handleManualAdd s clickX clickY glyph newId).emojis.getLast?
      = some { id := newId, char := glyph, x := clickX, y := clickY,
               width := 50, scale := 1, rotation := 0 } ∧
    (handleManualAdd s clickX clickY glyph newId).selectedEmojiId
      = s.selectedEmojiId := by
  refine ⟨?_, ?_, rfl⟩
  · simp [handleManualAdd]
  · simp [handleManualAdd]

/-- C8: if sticker `sid` is selected (a truthy id), `removeSelectedEmoji`
clears the selection, removes exactly the stickers bearing `sid`, and keeps
every other sticker in order (the result is a sublist of the original). -/
theorem removeSelected_clears_selection (s : AppState) (sid : String)
    (hsel : s.selectedEmojiId = some sid) (hne : sid ≠ "") :
    (removeSelectedEmoji s).selectedEmojiId = none ∧
    (∀ e, e ∈ (removeSelectedEmoji s).emojis ↔ e ∈ s.emojis ∧ e.id ≠ sid) ∧
    (removeSelectedEmoji s).emojis.Sublist s.emojis := by
  refine ⟨?_, ?_, ?_⟩
  · simp [removeSelectedEmoji, hsel, hne]
  · intro e
    simp [removeSelectedEmoji, hsel, hne, List.mem_filter]
  · simp only [removeSelectedEmoji, hsel, hne, if_neg]
    exact List.filter_sublist s.emojis

/-- C8 witness: in a concrete two-sticker store with "a" selected, removal
leaves selection `none` and keeps exactly the sticker "b". -/
theorem removeSelected_clears_selection_witness :
    (removeSelectedEmoji
        { emojis := [{ id := "a", char := "😀", x := 0, y := 0, width := 50,
                       scale := 1, rotation := 0 },
                     { id := "b", char := "😎", x := 10, y := 10, width := 50,
                       scale := 1, rotation := 0 }]
          selectedEmojiId := some "a"
          imageUrl := some "img" }).selectedEmojiId = none :=
  (removeSelected_clears_selection
    { emojis := [{ id := "a", char := "😀", x := 0, y := 0, width := 50,
                   scale := 1, rotation := 0 },
                 { id := "b", char := "😎", x := 10, y := 10, width := 50,
                   scale := 1, rotation := 0 }]
      selectedEmojiId := some "a"
      imageUrl := some "img" } "a" rfl (by decide)).1

/-- C10: double-click delete on sticker id `tid` removes every sticker with
that id, keeps all others, and sets the selection to none unconditionally —
whatever sticker (if any) was selected before. -/
theorem dblClick_removes_and_deselects (s : AppState) (tid : String) (e : Emoji)
    (_he : e ∈ s.emojis) (hid : e.id = tid) :
    (handleDblClick s tid).selectedEmojiId = none ∧
    e ∉ (handleDblClick s tid).emojis ∧
    (∀ e2, e2 ∈ s.emojis → e2.id ≠ tid → e2 ∈ (handleDblClick s tid).emojis) := by
  refine ⟨rfl, ?_, ?_⟩
  · simp [handleDblClick, List.mem_filter, hid]
  · intro e2 hmem hne
    simp [handleDblClick, List.mem_filter, hmem, hne]

/-- C10 witness: double-clicking sticker "a" while sticker "b" is selected
removes "a", keeps "b", and deselects "b". -/
theorem dblClick_removes_and_deselects_witness :
    (handleDblClick
        { emojis := [{ id := "a", char := "😀", x := 0, y := 0, width := 50,
                       scale := 1, rotation := 0 },
                     { id := "b", char := "😎", x := 10, y := 10, width := 50,
                       scale := 1, rotation := 0 }]
          selectedEmojiId := some "b"
          imageUrl := some "img" } "a").selectedEmojiId = none :=
  (dblClick_removes_and_deselects
    { emojis := [{ id := "a", char := "😀", x := 0, y := 0, width := 50,
                   scale := 1, rotation := 0 },
                 { id := "b", char := "😎", x := 10, y := 10, width := 50,
                   scale := 1, rotation := 0 }]
      selectedEmojiId := some "b"
      imageUrl := some "img" } "a"
    { id := "a", char := "😀", x := 0, y := 0, width := 50,
      scale := 1, rotation := 0 }
    (by simp) rfl).1

/-! ## Drag state machine (app.tsx lines 202-296)

`dragInfo` is a single mutable ref holding at most one record
`{startX, startY, startLeft, startTop}`. `handleMouseDown` overwrites it
unconditionally and selects the pressed sticker (the move handlers close
over that sticker's id); `handleTouchStart` does the same only when exactly
one touch is active (`e.touches.length === 1`). -/
structure DragInfo where
  startX : ℚ
  startY : ℚ
  startLeft : ℚ
  startTop : ℚ
deriving DecidableEq, Repr

/-- The drag-machine state: the `dragInfo` ref paired with the id of the
sticker the active drag targets, plus the selection. -/
structure DragState where
  dragInfo : Option (String × DragInfo)
  selected : Option String
deriving DecidableEq, Repr

def handleMouseDown (s : DragState) (clientX clientY : ℚ) (e : Emoji) :
    DragState :=
  { s with
    dragInfo := some (e.id, ⟨clientX, clientY, e.x, e.y⟩)
    selected := some e.id }

def handleTouchStart (s : DragState) (touchCount : Nat) (clientX clientY : ℚ)
    (e : Emoji) : DragState :=
  if touchCount = 1 then
    { s with
      dragInfo := some (e.id, ⟨clientX, clientY, e.x, e.y⟩)
      selected := some e.id }
  else s

/-- The drag-move update (app.tsx lines 214-233): with drag record
`(startX, startY, startLeft, startTop)` and the pointer now at `(px, py)`,
every sticker whose id matches the dragged sticker's id is moved to
`(startLeft + (px - startX), startTop + (py - startY))`; no clamping. -/
def dragMove (targetId : String) (startX startY startLeft startTop px py : ℚ)
    (es : List Emoji) : List Emoji :=
  es.map fun em =>
    if em.id = targetId then
      { em with
        x := startLeft + (px - startX)
        y := startTop + (py - startY) }
    else em

/-- C6 counterexample: while a drag of sticker "a" is active, a second
mouse-down on sticker "b" is *not* ignored — the drag record is replaced by
one targeting "b". -/
theorem second_mouseDown_not_ignored_cex :
    (handleMouseDown
        { dragInfo := some ("a", ⟨0, 0, 0, 0⟩), selected := some "a" }
        5 5
        { id := "b", char := "😀", x := 30, y := 30, width := 50,
          scale := 1, rotation := 0 }).dragInfo
      ≠ some ("a", ⟨0, 0, 0, 0⟩) := by
  simp [handleMouseDown]

/-- C6 amended: the machine holds at most one drag record (a single ref);
while a drag is active, a touch-start with more than one active touch is
ignored, but a mouse-down is not ignored — it replaces the drag with one
targeting the newly pressed sticker and selects it. -/
theorem single_drag_slot (s : DragState) (r : String × DragInfo)
    (_hdrag : s.dragInfo = some r) (n : Nat) (hn : n ≠ 1) (cx cy : ℚ)
    (e : Emoji) :
    handleTouchStart s n cx cy e = s ∧
    (handleMouseDown s cx cy e).dragInfo = some (e.id, ⟨cx, cy, e.x, e.y⟩) ∧
    (handleMouseDown s cx cy e).selected = some e.id := by
  refine ⟨?_, rfl, rfl⟩
  simp [handleTouchStart, hn]

/-- C6 witness: concrete drag of "a" active; a two-finger touch-start is
ignored and a mouse-down on "b" retargets the drag. -/
theorem single_drag_slot_witness :
    handleTouchStart
        { dragInfo := some ("a", ⟨0, 0, 0, 0⟩), selected := some "a" } 2 5 5
        { id := "b", char := "😀", x := 30, y := 30, width := 50,
          scale := 1, rotation := 0 }
      = { dragInfo := some ("a", ⟨0, 0, 0, 0⟩), selected := some "a" } :=
  (single_drag_slot
    { dragInfo := some ("a", ⟨0, 0, 0, 0⟩), selected := some "a" }
    ("a", ⟨0, 0, 0, 0⟩) rfl 2 (by decide) 5 5
    { id := "b", char := "😀", x := 30, y := 30, width := 50,
      scale := 1, rotation := 0 }).1

/-- C7: a drag move sets every sticker carrying the dragged id to
`(startLeft + dx, startTop + dy)` with no clamping, and dragging by
`(dx, dy)` then dragging back by `(-dx, -dy)` (the second drag recapturing
the moved position `(L + dx, T + dy)` as its start) restores the original
list exactly. The hypothesis says the dragged id's stickers sit at
`(L, T)`, as captured at mouse-down. -/
theorem dragMove_exact_roundtrip (tid : String) (sx sy sx2 sy2 L T dx dy : ℚ)
    (es : List Emoji)
    (h : ∀ e ∈ es, e.id = tid → e.x = L ∧ e.y = T) :
    (∀ e ∈ dragMove tid sx sy L T (sx + dx) (sy + dy) es,
        e.id = tid → e.x = L + dx ∧ e.y = T + dy) ∧
    dragMove tid sx2 sy2 (L + dx) (T + dy) (sx2 - dx) (sy2 - dy)
        (dragMove tid sx sy L T (sx + dx) (sy + dy) es) = es := by
  constructor
  · intro e he hid
    simp only [dragMove, List.mem_map] at he
    obtain ⟨a, ha, rfl⟩ := he
    by_cases hid2 : a.id = tid
    · rw [if_pos hid2]
      exact ⟨by show L + (sx + dx - sx) = L + dx; ring,
             by show T + (sy + dy - sy) = T + dy; ring⟩
    · rw [if_neg hid2] at hid
      exact absurd hid hid2
  · simp only [dragMove, List.map_map]
    conv_rhs => rw [← List.map_id es]
    apply List.map_congr_left
    intro a ha
    obtain ⟨aid, ach, ax, ay, aw, asc, art⟩ := a
    by_cases hid : aid = tid
    · obtain ⟨hx, hy⟩ := h ⟨aid, ach, ax, ay, aw, asc, art⟩ ha hid
      dsimp only at hx hy
      simp only [Function.comp_apply, id_eq]
      rw [if_pos hid]
      rw [if_pos hid]
      simp only [Emoji.mk.injEq, true_and, and_true]
      refine ⟨?_, ?_⟩
      · rw [hx]; ring
      · rw [hy]; ring
    · simp only [Function.comp_apply, id_eq]
      rw [if_neg hid]
      rw [if_neg hid]

/-- C7 witness: a concrete sticker at `(10, 20)` dragged by `(3, 4)` and
then dragged back by `(-3, -4)` ends exactly where it started. -/
theorem dragMove_exact_roundtrip_witness :
    dragMove "a" 100 100 (10 + 3) (20 + 4) (100 - 3) (100 - 4)
        (dragMove "a" 0 0 10 20 (0 + 3) (0 + 4)
          [{ id := "a", char := "😀", x := 10, y := 20, width := 50,
             scale := 1, rotation := 0 }])
      = [{ id := "a", char := "😀", x := 10, y := 20, width := 50,
           scale := 1, rotation := 0 }] :=
  (dragMove_exact_roundtrip "a" 0 0 100 100 10 20 3 4
    [{ id := "a", char := "😀", x := 10, y := 20, width := 50,
       scale := 1, rotation := 0 }]
    (by intro e he hid
        simp only [List.mem_singleton] at he
        subst he
        exact ⟨rfl, rfl⟩)).2

/-! ## Compositor / export (app.tsx lines 378-470)

`downloadImage` draws the base image at natural size, computes
`scaleFactor = originalWidth / displayWidth`, then for each emoji in store
order resolves its twemoji SVG URL; if a URL was found it awaits the
image's `onload` and then issues `save`, `translate(centerX, centerY)`,
`rotate(rotation · π / 180)`, `drawImage(-width/2, -width/2, width, width)`,
`restore` on the 2D context, where `x = emoji.x · scaleFactor`,
`y = emoji.y · scaleFactor`, `width = emoji.width · scaleFactor · scale`,
`centerX = x + width/2`, `centerY = y + width/2`. The image element has no
`onerror` handler: if a resolved URL fails to load, the awaited promise
never settles and the loop never advances. -/

/-- The per-sticker center used as the rotation pivot during export
(app.tsx lines 430-437). -/
def exportCenter (f : ℚ) (e : Emoji) : ℚ × ℚ :=
  (e.x * f + e.width * f * e.scale / 2, e.y * f + e.width * f * e.scale / 2)

/-- A primitive canvas transform, recorded symbolically. `rotatePiMul t`
stands for a rotation by `t · π` radians: the source calls
`ctx.rotate(rotation * Math.PI / 180)`, recorded as
`rotatePiMul (rotation / 180)`. -/
inductive Xf where
  | translate (a b : ℚ)
  | rotatePiMul (t : ℚ)
deriving DecidableEq, Repr

/-- The canvas-context calls the export loop issues. -/
inductive CanvasOp where
  | save
  | translate (a b : ℚ)
  | rotatePiMul (t : ℚ)
  | drawImage (x y w h : ℚ)
  | restore
deriving DecidableEq, Repr

/-- A recorded `drawImage` call: the transform in effect when it ran, and
the local-space rectangle. -/
structure DrawRec where
  xf : List Xf
  x : ℚ
  y : ℚ
  w : ℚ
  h : ℚ
deriving DecidableEq, Repr

/-- Canvas 2D context state: the current transform (a composition of
primitives, applied left to right), the `save` stack, and the draws
performed so far. -/
structure Ctx where
  current : List Xf
  stack : List (List Xf)
  drawn : List DrawRec
deriving DecidableEq, Repr

/-- Semantics of one context call, per the HTML canvas API: `save` pushes
the current transform, `restore` pops it (no-op on an empty stack),
`translate`/`rotate` compose onto the current transform, `drawImage`
records a draw under the current transform. -/
def step (c : Ctx) : CanvasOp → Ctx
  | .save => { c with stack := c.current :: c.stack }
  | .translate a b => { c with current := c.current ++ [Xf.translate a b] }
  | .rotatePiMul t => { c with current := c.current ++ [Xf.rotatePiMul t] }
  | .drawImage x y w h => { c with drawn := c.drawn ++ [⟨c.current, x, y, w, h⟩] }
  | .restore =>
    match c.stack with
    | [] => c
    | top :: rest => { c with current := top, stack := rest }

def runOps (c : Ctx) (ops : List CanvasOp) : Ctx := ops.foldl step c

/-- The context calls issued for one sticker (app.tsx lines 429-441). -/
def emojiOps (f : ℚ) (e : Emoji) : List CanvasOp :=
  let x := e.x * f
  let y := e.y * f
  let width := e.width * f * e.scale
  [CanvasOp.save,
   CanvasOp.translate (x + width / 2) (y + width / 2),
   CanvasOp.rotatePiMul (e.rotation / 180),
   CanvasOp.drawImage (-(width / 2)) (-(width / 2)) width width,
   CanvasOp.restore]

/-- The export loop over the sticker list (app.tsx lines 415-449),
parameterized by the twemoji URL resolution (`.match(/src=.../)`) and by
whether a URL's image load succeeds. A sticker with no resolved URL is
skipped (`if (emojiSvgUrl)`); a sticker whose image never fires `onload`
leaves the awaited promise pending, so no further sticker is processed and
the loop never completes (second component `false`). -/
def exportLoop (resolve : String → Option String) (ld : String → Bool)
    (f : ℚ) : List Emoji → List CanvasOp × Bool
  | [] => ([], true)
  | e :: rest =>
    match resolve e.char with
    | none => exportLoop resolve ld f rest
    | some url =>
      if ld url then
        let r := exportLoop resolve ld f rest
        (emojiOps f e ++ r.1, r.2)
      else ([], false)

/-- The draw record the export loop produces for one sticker when its
glyph resolves and loads, starting from an identity transform. -/
def drawRecOf (f : ℚ) (e : Emoji) : DrawRec :=
  let width := e.width * f * e.scale
  { xf := [Xf.translate (e.x * f + width / 2) (e.y * f + width / 2),
           Xf.rotatePiMul (e.rotation / 180)]
    x := -(width / 2)
    y := -(width / 2)
    w := width
    h := width }

theorem runOps_append (c : Ctx) (l1 l2 : List CanvasOp) :
    runOps c (l1 ++ l2) = runOps (runOps c l1) l2 := by
  simp [runOps]

/-- Running one sticker's block from any context leaves the current
transform and stack unchanged and appends one draw record whose transform
is the incoming transform followed by that sticker's translate-rotate
pair. -/
theorem runOps_emojiOps (cur : List Xf) (st : List (List Xf))
    (d : List DrawRec) (f : ℚ) (e : Emoji) :
    runOps ⟨cur, st, d⟩ (emojiOps f e)
      = ⟨cur, st,
         d ++ [{ drawRecOf f e with xf := cur ++ (drawRecOf f e).xf }]⟩ := by
  simp [runOps, emojiOps, step, drawRecOf]

/-- Generalized run of the export loop from an identity current transform:
when every resolved URL loads, the loop completes, stickers whose glyph
does not resolve are the only ones omitted, and the draws append in store
order, each under exactly its own translate-rotate transform. -/
theorem exportLoop_run_general (resolve : String → Option String)
    (ld : String → Bool) (f : ℚ) :
    ∀ (es : List Emoji) (st : List (List Xf)) (d : List DrawRec),
      (∀ e ∈ es, ∀ url, resolve e.char = some url → ld url = true) →
      (exportLoop resolve ld f es).2 = true ∧
      runOps ⟨[], st, d⟩ (exportLoop resolve ld f es).1
        = ⟨[], st,
           d ++ (es.filter (fun e => (resolve e.char).isSome)).map
                  (drawRecOf f)⟩ := by
  intro es
  induction es with
  | nil =>
    intro st d _
    exact ⟨rfl, by simp [exportLoop, runOps]⟩
  | cons e rest ih =>
    intro st d h
    have hrest := fun e2 he2 => h e2 (List.mem_cons_of_mem e he2)
    cases hres : resolve e.char with
    | none =>
      have := ih st d hrest
      constructor
      · simpa [exportLoop, hres] using this.1
      · have h2 := this.2
        simp only [exportLoop, hres]
        rw [h2]
        simp [List.filter_cons, hres]
    | some url =>
      have hload : ld url = true := h e (List.mem_cons_self e rest) url hres
      constructor
      · simpa [exportLoop, hres, hload] using (ih st d hrest).1
      · simp only [exportLoop, hres, hload, if_true]
        rw [runOps_append, runOps_emojiOps]
        have h2 := (ih st (d ++ [drawRecOf f e]) hrest).2
        simp only [List.nil_append] at h2 ⊢
        rw [h2]
        simp [List.filter_cons, hres, List.append_assoc]

/-- C3: for every export input (URL resolution, load behavior, natural
width, positive display width, sticker list) in which every glyph resolves
and loads, the compositor draws the stickers in store order; each sticker
is drawn under the transform `translate(nx + nw/2, ny + nw/2)` then
`rotate(rotation · π/180)` built from that sticker alone, with
`nx = x · factor`, `ny = y · factor`, `nw = width · factor · scale`,
`factor = naturalWidth / displayWidth`, as an `nw × nw` square centered at
the local origin; and the final current transform and save-stack are back
to identity — no transform leaks to subsequent stickers. -/
theorem export_draw_pipeline (resolve : String → Option String)
    (ld : String → Bool) (naturalWidth displayWidth : ℚ) (es : List Emoji)
    (_hw : 0 < displayWidth)
    (h : ∀ e ∈ es, ∃ url, resolve e.char = some url ∧ ld url = true) :
    (exportLoop resolve ld (naturalWidth / displayWidth) es).2 = true ∧
    runOps ⟨[], [], []⟩
        (exportLoop resolve ld (naturalWidth / displayWidth) es).1
      = ⟨[], [], es.map (drawRecOf (naturalWidth / displayWidth))⟩ := by
  have hgen := exportLoop_run_general resolve ld (naturalWidth / displayWidth)
    es [] []
    (fun e he url hres => by
      obtain ⟨u2, hr2, hl2⟩ := h e he
      rw [hres] at hr2
      obtain rfl : url = u2 := Option.some.inj hr2
      exact hl2)
  have hfil : es.filter (fun e => (resolve e.char).isSome) = es :=
    List.filter_eq_self.2 (fun e he => by
      obtain ⟨u, hr, _⟩ := h e he
      simp [hr])
  exact ⟨hgen.1, by simpa [hfil] using hgen.2⟩

/-- C3 witness: factor `200/100 = 2`; sticker "a" at `(10, 20)`, width 30,
scale 1, rotation 90 draws a 60×60 square under translate `(50, 70)` and
rotation `π/2`; sticker "b" at `(0, 0)`, width 40, scale 2, rotation 45
draws a 160×160 square under translate `(80, 80)` and rotation `π/4`; the
final transform state is identity. -/
theorem export_draw_pipeline_witness :
    (0 : ℚ) < 100 ∧
    runOps ⟨[], [], []⟩
        (exportLoop (fun _ => some "u") (fun _ => true) ((200 : ℚ) / 100)
          [{ id := "a", char := "😀", x := 10, y := 20, width := 30,
             scale := 1, rotation := 90 },
           { id := "b", char := "😎", x := 0, y := 0, width := 40,
             scale := 2, rotation := 45 }]).1
      = ⟨[], [],
         [⟨[Xf.translate 50 70, Xf.rotatePiMul (1 / 2)], -30, -30, 60, 60⟩,
          ⟨[Xf.translate 80 80, Xf.rotatePiMul (1 / 4)], -80, -80, 160, 160⟩]⟩ := by
  refine ⟨by norm_num, ?_⟩
  rw [(export_draw_pipeline (fun _ => some "u") (fun _ => true) 200 100
    [{ id := "a", char := "😀", x := 10, y := 20, width := 30,
       scale := 1, rotation := 90 },
     { id := "b", char := "😎", x := 0, y := 0, width := 40,
       scale := 2, rotation := 45 }]
    (by norm_num) (fun e _ => ⟨"u", rfl, rfl⟩)).2]
  norm_num [drawRecOf]

/-- C4 (code bug): the export pivot is *not* invariant under scale change.
For a sticker at `(0, 0)` with `width = 40` and `factor = 1`, the code
pivots at `(40, 40)` when `scale = 2, rotation = 90`, but the same sticker
with `scale = 1, rotation = 0` has center `(20, 20)`: the export scales
about the top-left, while the on-screen rendering (`transformOrigin:
center center`, app.tsx line 537) scales about the sticker's center. -/
theorem exportCenter_depends_on_scale :
    exportCenter 1 { id := "a", char := "😀", x := 0, y := 0, width := 40,
                     scale := 2, rotation := 90 } = (40, 40) ∧
    exportCenter 1 { id := "a", char := "😀", x := 0, y := 0, width := 40,
                     scale := 1, rotation := 0 } = (20, 20) ∧
    ((40, 40) : ℚ × ℚ) ≠ (20, 20) := by
  refine ⟨?_, ?_, ?_⟩
  · norm_num [exportCenter, Prod.ext_iff]
  · norm_num [exportCenter, Prod.ext_iff]
  · norm_num [Prod.ext_iff]

/-- C9 counterexample: sticker "a"'s glyph resolves to a URL whose image
fails to load, sticker "b"'s glyph resolves and loads fine — yet the export
stalls on "a": nothing is drawn, "b" is never processed, and the loop never
completes, refuting "that sticker alone is omitted and every remaining
sticker is still processed and drawn". -/
theorem export_stall_on_load_failure_cex :
    (exportLoop (fun c => if c = "😀" then some "bad" else some "good")
        (fun u => u != "bad") 1
        [{ id := "a", char := "😀", x := 0, y := 0, width := 50,
           scale := 1, rotation := 0 },
         { id := "b", char := "😎", x := 10, y := 10, width := 50,
           scale := 1, rotation := 0 }])
      = ([], false) ∧
    ((fun c => if c = "😀" then some "bad" else some "good") "😎"
      = some "good") ∧
    ((fun u => u != "bad") "good" = true) := by
  refine ⟨?_, ?_, ?_⟩ <;> rfl

/-- C9 amended: if every *resolved* URL's image loads, then the export
completes, stickers whose glyph fails to resolve a URL are the only ones
omitted, and every other sticker is drawn in store order; but a resolved
URL that fails to load stalls the export (see the counterexample). -/
theorem export_skips_unresolved_only (resolve : String → Option String)
    (ld : String → Bool) (f : ℚ) (es : List Emoji)
    (h : ∀ e ∈ es, ∀ url, resolve e.char = some url → ld url = true) :
    (exportLoop resolve ld f es).2 = true ∧
    runOps ⟨[], [], []⟩ (exportLoop resolve ld f es).1
      = ⟨[], [],
         (es.filter (fun e => (resolve e.char).isSome)).map (drawRecOf f)⟩ := by
  have hg := exportLoop_run_general resolve ld f es [] [] h
  exact ⟨hg.1, by simpa using hg.2⟩

/-- C9 witness: glyph "😀" resolves to no URL and is skipped; glyph "😎"
resolves and is drawn; the export completes. -/
theorem export_skips_unresolved_only_witness :
    (exportLoop (fun c => if c = "😀" then none else some "u")
        (fun _ => true) 1
        [{ id := "a", char := "😀", x := 0, y := 0, width := 50,
           scale := 1, rotation := 0 },
         { id := "b", char := "😎", x := 10, y := 10, width := 50,
           scale := 1, rotation := 0 }]).2 = true ∧
    runOps ⟨[], [], []⟩
        (exportLoop (fun c => if c = "😀" then none else some "u")
          (fun _ => true) 1
          [{ id := "a", char := "😀", x := 0, y := 0, width := 50,
             scale := 1, rotation := 0 },
           { id := "b", char := "😎", x := 10, y := 10, width := 50,
             scale := 1, rotation := 0 }]).1
      = ⟨[], [],
         [⟨[Xf.translate 35 35, Xf.rotatePiMul 0], -25, -25, 50, 50⟩]⟩ := by
  have hthm := export_skips_unresolved_only
    (fun c => if c = "😀" then none else some "u") (fun _ => true) 1
    [{ id := "a", char := "😀", x := 0, y := 0, width := 50,
       scale := 1, rotation := 0 },
     { id := "b", char := "😎", x := 10, y := 10, width := 50,
       scale := 1, rotation := 0 }]
    (fun _ _ _ _ => rfl)
  refine ⟨hthm.1, ?_⟩
  rw [hthm.2]
  have hb : ("😎" : String) ≠ "😀" := by decide
  norm_num [drawRecOf, List.filter_cons, hb]

end FaceToEmoji
